import Mathlib

/-!
Verification of the relenv linux build-graph registration and environment
helpers, shallowly embedded from `src/relenv/build/linux.py` and
`src/relenv/buildenv.py`.  Parts of the core that live in
`relenv/build/common.py` (the `builds` registry, `Builder.add`/`copy`, the
scheduler and the per-step download/verify pipeline) are not part of the
inspected sources; those are modelled from the specification and marked as
such on their doc comments.
-/

namespace Relenv

/-- A step's download metadata, embedded from the `download={...}` dictionaries
passed to `build.add` in src/relenv/build/linux.py.  `checkfunc` is recorded as
the name of the version-check callable; it is never consulted during a build. -/
structure DownloadSpec where
  url : String
  fallback_url : Option String
  version : String
  checksum : String
  checkfunc : Option String
  checkurl : Option String
deriving Repr, DecidableEq

/-- A registered build step: its name, the name of its build procedure (the
`build_func` argument; `none` when the registration omits it), the names of
the steps it waits on, and its optional download metadata. -/
structure BuildStep where
  name : String
  build_func : Option String
  wait_on : List String
  download : Option DownloadSpec
deriving Repr, DecidableEq

/-- The graph-wide default version of the linux builder, from
`builds.add("linux", populate_env=populate_env, version="3.10.16")`
(src/relenv/build/linux.py line 666). -/
def linux_version : String := "3.10.16"

/-- Step `openssl` (src/relenv/build/linux.py lines 668-679). -/
def openssl_step : BuildStep :=
  { name := "openssl"
    build_func := some "build_openssl"
    wait_on := []
    download := some
      { url := "https://github.com/openssl/openssl/releases/download/openssl-{version}/openssl-{version}.tar.gz"
        fallback_url := some "https://woz.io/relenv/dependencies/openssl-{version}.tar.gz"
        version := "3.4.0"
        checksum := "5c2f33c3f3601676f225109231142cdc30d44127"
        checkfunc := some "tarball_version"
        checkurl := some "https://www.openssl.org/source/" } }

/-- Step `openssl-fips-module` (lines 682-694). -/
def openssl_fips_module_step : BuildStep :=
  { name := "openssl-fips-module"
    build_func := some "build_openssl_fips"
    wait_on := ["openssl"]
    download := some
      { url := "https://www.openssl.org/source/openssl-{version}.tar.gz"
        fallback_url := some "https://woz.io/relenv/dependencies/openssl-{version}.tar.gz"
        version := "3.0.9"
        checksum := "b569725118c0603537c9a19449046b41b39627c8"
        checkfunc := some "tarball_version"
        checkurl := some "https://www.openssl.org/source/" } }

/-- Step `libxcrypt` (lines 697-706); no `build_func`, no fallback url. -/
def libxcrypt_step : BuildStep :=
  { name := "libxcrypt"
    build_func := none
    wait_on := []
    download := some
      { url := "https://github.com/besser82/libxcrypt/releases/download/v{version}/libxcrypt-{version}.tar.xz"
        fallback_url := none
        version := "4.4.36"
        checksum := "c040de2fd534f84082c9c42114ba11b4e1a67635"
        checkfunc := some "github_version"
        checkurl := some "https://github.com/besser82/libxcrypt/releases/" } }

/-- Step `XZ` (lines 708-717). -/
def xz_step : BuildStep :=
  { name := "XZ"
    build_func := none
    wait_on := []
    download := some
      { url := "http://tukaani.org/xz/xz-{version}.tar.gz"
        fallback_url := some "https://woz.io/relenv/dependencies/xz-{version}.tar.gz"
        version := "5.6.2"
        checksum := "0d6b10e4628fe08e19293c65e8dbcaade084a083"
        checkfunc := some "tarball_version"
        checkurl := none } }

/-- Step `SQLite` (lines 719-730). -/
def sqlite_step : BuildStep :=
  { name := "SQLite"
    build_func := some "build_sqlite"
    wait_on := []
    download := some
      { url := "https://sqlite.org/2024/sqlite-autoconf-{version}.tar.gz"
        fallback_url := some "https://woz.io/relenv/dependencies/sqlite-autoconf-{version}.tar.gz"
        version := "3470200"
        checksum := "40f0296080bb63f0321a5652477a6ab87c757aa2"
        checkfunc := some "sqlite_version"
        checkurl := some "https://sqlite.org/" } }

/-- Step `bzip2` (lines 732-742). -/
def bzip2_step : BuildStep :=
  { name := "bzip2"
    build_func := some "build_bzip2"
    wait_on := []
    download := some
      { url := "https://sourceware.org/pub/bzip2/bzip2-{version}.tar.gz"
        fallback_url := some "https://woz.io/relenv/dependencies/bzip2-{version}.tar.gz"
        version := "1.0.8"
        checksum := "bf7badf7e248e0ecf465d33c2f5aeec774209227"
        checkfunc := some "tarball_version"
        checkurl := none } }

/-- Step `gdbm` (lines 744-754). -/
def gdbm_step : BuildStep :=
  { name := "gdbm"
    build_func := some "build_gdbm"
    wait_on := []
    download := some
      { url := "https://ftp.gnu.org/gnu/gdbm/gdbm-{version}.tar.gz"
        fallback_url := some "https://woz.io/relenv/dependencies/gdbm-{version}.tar.gz"
        version := "1.24"
        checksum := "7bd455f28c9e4afacc042e0c712aac1b2391fef2"
        checkfunc := some "tarball_version"
        checkurl := none } }

/-- Step `ncurses` (lines 756-769); version 6.4 is the active pair, the 6.5
lines are commented out in the source. -/
def ncurses_step : BuildStep :=
  { name := "ncurses"
    build_func := some "build_ncurses"
    wait_on := []
    download := some
      { url := "https://ftp.gnu.org/pub/gnu/ncurses/ncurses-{version}.tar.gz"
        fallback_url := some "https://woz.io/relenv/dependencies/ncurses-{version}.tar.gz"
        version := "6.4"
        checksum := "bb5eb3f34b3ecd5bac8d0b58164b847f135b3d62"
        checkfunc := some "tarball_version"
        checkurl := none } }

/-- Step `libffi` (lines 771-782). -/
def libffi_step : BuildStep :=
  { name := "libffi"
    build_func := some "build_libffi"
    wait_on := []
    download := some
      { url := "https://github.com/libffi/libffi/releases/download/v{version}/libffi-{version}.tar.gz"
        fallback_url := some "https://woz.io/relenv/dependencies/libffi-{version}.tar.gz"
        version := "3.4.6"
        checksum := "19251dfee520dff42acefe36bfe76d7168071e01"
        checkfunc := some "github_version"
        checkurl := some "https://github.com/libffi/libffi/releases/" } }

/-- Step `zlib` (lines 784-794). -/
def zlib_step : BuildStep :=
  { name := "zlib"
    build_func := some "build_zlib"
    wait_on := []
    download := some
      { url := "https://zlib.net/fossils/zlib-{version}.tar.gz"
        fallback_url := some "https://woz.io/relenv/dependencies/zlib-{version}.tar.gz"
        version := "1.3.1"
        checksum := "f535367b1a11e2f9ac3bec723fb007fbc0d189e5"
        checkfunc := some "tarball_version"
        checkurl := none } }

/-- Step `uuid` (lines 796-805). -/
def uuid_step : BuildStep :=
  { name := "uuid"
    build_func := none
    wait_on := []
    download := some
      { url := "https://sourceforge.net/projects/libuuid/files/libuuid-{version}.tar.gz"
        fallback_url := some "https://woz.io/relenv/dependencies/libuuid-{version}.tar.gz"
        version := "1.0.3"
        checksum := "46eaedb875ae6e63677b51ec583656199241d597"
        checkfunc := some "uuid_version"
        checkurl := none } }

/-- Step `krb5` (lines 807-819); waits on openssl. -/
def krb5_step : BuildStep :=
  { name := "krb5"
    build_func := some "build_krb"
    wait_on := ["openssl"]
    download := some
      { url := "https://kerberos.org/dist/krb5/{version}/krb5-{version}.tar.gz"
        fallback_url := some "https://woz.io/relenv/dependencies/krb5-{version}.tar.gz"
        version := "1.21"
        checksum := "e2ee531443122376ac8b62b3848d94376f646089"
        checkfunc := some "krb_version"
        checkurl := some "https://kerberos.org/dist/krb5/" } }

/-- Step `readline` (lines 821-832); waits on ncurses. -/
def readline_step : BuildStep :=
  { name := "readline"
    build_func := some "build_readline"
    wait_on := ["ncurses"]
    download := some
      { url := "https://ftp.gnu.org/gnu/readline/readline-{version}.tar.gz"
        fallback_url := some "https://woz.io/relenv/dependencies/readline-{version}.tar.gz"
        version := "8.2.13"
        checksum := "5ffb6a334c2422acbe8f4d2cb11e345265c8d930"
        checkfunc := some "tarball_version"
        checkurl := none } }

/-- Step `tirpc` (lines 834-847); waits on krb5. -/
def tirpc_step : BuildStep :=
  { name := "tirpc"
    build_func := none
    wait_on := ["krb5"]
    download := some
      { url := "https://sourceforge.net/projects/libtirpc/files/libtirpc-{version}.tar.bz2"
        fallback_url := some "https://woz.io/relenv/dependencies/libtirpc-{version}.tar.bz2"
        version := "1.3.6"
        checksum := "03352908461ad2122e5be4a678893aaa2ad2ac45"
        checkfunc := some "tarball_version"
        checkurl := none } }

/-- Step `openldap` (lines 849-862); waits on krb5. -/
def openldap_step : BuildStep :=
  { name := "openldap"
    build_func := some "build_openldap"
    wait_on := ["krb5"]
    download := some
      { url := "https://www.openldap.org/software/download/OpenLDAP/openldap-release/openldap-{version}.tgz"
        fallback_url := some "https://mirrors.jevincanders.net/openldap/openldap-release/openldap-{version}.tgz"
        version := "2.5.19"
        checksum := "efd9caaa1d36b2b940eb79f30e264b527a80e3c1"
        checkfunc := some "tarball_version"
        checkurl := none } }

/-- Step `cyrus-sasl` (lines 864-877); waits on openldap. -/
def cyrus_sasl_step : BuildStep :=
  { name := "cyrus-sasl"
    build_func := some "build_sasl"
    wait_on := ["openldap"]
    download := some
      { url := "https://github.com/cyrusimap/cyrus-sasl/releases/download/cyrus-sasl-{version}/cyrus-sasl-{version}.tar.gz"
        fallback_url := some "https://nexus.oit.gatech.edu/relenv/dependencies/cyrus-sasl-{version}.tar.gz"
        version := "2.1.28"
        checksum := "c96d2ccd891904ce0118fdfcdfbd47e37a1e7543"
        checkfunc := some "tarball_version"
        checkurl := none } }

/-- Step `libyaml` (lines 879-889). -/
def libyaml_step : BuildStep :=
  { name := "libyaml"
    build_func := some "build_libyaml"
    wait_on := []
    download := some
      { url := "https://github.com/yaml/libyaml/releases/download/{version}/yaml-{version}.tar.gz"
        fallback_url := some "https://nexus.oit.gatech.edu/relenv/dependencies/yaml-{version}.tar.gz"
        version := "0.2.5"
        checksum := "f49b39644caccabef049e3ec8859e8fdf94b686e"
        checkfunc := some "tarball_version"
        checkurl := none } }

/-- Step `libsodium` (lines 891-901). -/
def libsodium_step : BuildStep :=
  { name := "libsodium"
    build_func := some "build_libsodium"
    wait_on := []
    download := some
      { url := "https://github.com/jedisct1/libsodium/releases/download/{version}-RELEASE/libsodium-{version}.tar.gz"
        fallback_url := some "https://nexus.oit.gatech.edu/relenv/dependencies/libsodium-{version}.tar.gz"
        version := "1.0.20"
        checksum := "e37f50e66b4b90957cfef5792c6af6abf27ae9c6"
        checkfunc := some "tarball_version"
        checkurl := none } }

/-- Step `libmd` (lines 903-913). -/
def libmd_step : BuildStep :=
  { name := "libmd"
    build_func := some "build_libmd"
    wait_on := []
    download := some
      { url := "https://archive.hadrons.org/software/libmd/libmd-{version}.tar.xz"
        fallback_url := some "https://nexus.oit.gatech.edu/relenv/dependencies/libmd-{version}.tar.gz"
        version := "1.1.0"
        checksum := "72718d5ffad112b702ba84fd40900486f8179642"
        checkfunc := some "tarball_version"
        checkurl := none } }

/-- Step `libbsd` (lines 915-928); waits on libmd. -/
def libbsd_step : BuildStep :=
  { name := "libbsd"
    build_func := some "build_libbsd"
    wait_on := ["libmd"]
    download := some
      { url := "https://libbsd.freedesktop.org/releases/libbsd-{version}.tar.xz"
        fallback_url := some "https://nexus.oit.gatech.edu/relenv/dependencies/libbsd-{version}.tar.gz"
        version := "0.12.2"
        checksum := "c8f49920dec71e8e72f2b19f6c209b440a367d3a"
        checkfunc := some "tarball_version"
        checkurl := none } }

/-- Step `zeromq` (lines 930-945); waits on libsodium and libbsd. -/
def zeromq_step : BuildStep :=
  { name := "zeromq"
    build_func := some "build_zeromq"
    wait_on := ["libsodium", "libbsd"]
    download := some
      { url := "https://github.com/zeromq/libzmq/releases/download/v{version}/zeromq-{version}.tar.gz"
        fallback_url := some "https://nexus.oit.gatech.edu/relenv/dependencies/zeromq-{version}.tar.gz"
        version := "4.3.5"
        checksum := "bdbf686c8a40ba638e21cf74e34dbb425e108500"
        checkfunc := some "tarball_version"
        checkurl := none } }

/-- Step `python` (lines 947-977); its download version is `build.version`,
the graph-wide default. -/
def python_step : BuildStep :=
  { name := "python"
    build_func := some "build_python"
    wait_on := ["libyaml", "openssl", "libxcrypt", "XZ", "SQLite", "bzip2",
      "gdbm", "ncurses", "libffi", "zlib", "uuid", "krb5", "readline",
      "tirpc", "openldap", "cyrus-sasl", "zeromq"]
    download := some
      { url := "https://www.python.org/ftp/python/{version}/Python-{version}.tar.xz"
        fallback_url := some "https://woz.io/relenv/dependencies/Python-{version}.tar.xz"
        version := linux_version
        checksum := "401e6a504a956c8f0aab76c4f3ad9df601a83eb1"
        checkfunc := some "python_version"
        checkurl := some "https://www.python.org/ftp/python/" } }

/-- Step `relenv-finalize` (lines 980-987); waits on python and
openssl-fips-module, no download. -/
def relenv_finalize_step : BuildStep :=
  { name := "relenv-finalize"
    build_func := some "finalize"
    wait_on := ["python", "openssl-fips-module"]
    download := none }

/-- The linux build graph's steps, in registration order
(src/relenv/build/linux.py lines 668-987). -/
def linux_steps : List BuildStep :=
  [openssl_step, openssl_fips_module_step, libxcrypt_step, xz_step,
   sqlite_step, bzip2_step, gdbm_step, ncurses_step, libffi_step, zlib_step,
   uuid_step, krb5_step, readline_step, tirpc_step, openldap_step,
   cyrus_sasl_step, libyaml_step, libsodium_step, libmd_step, libbsd_step,
   zeromq_step, python_step, relenv_finalize_step]

/-- The names of the linux graph's steps, in registration order. -/
def step_names : List String := linux_steps.map BuildStep.name

/-- A build graph (called `Builder` in the source): the registry key under
which it is filed, its graph-wide default version, the name of its
environment-populating collaborator and its ordered steps. -/
structure Builder where
  name : String
  version : String
  populate_env_name : Option String
  steps : List BuildStep
deriving Repr, DecidableEq

/-- The linux builder as registered at module load:
`builds.add("linux", populate_env=populate_env, version="3.10.16")` followed
by the `build.add` calls (src/relenv/build/linux.py lines 666-987). -/
def linux_build : Builder :=
  { name := "linux"
    version := linux_version
    populate_env_name := some "populate_env"
    steps := linux_steps }

/-- Modelled from the spec: `Builder.copy` lives in relenv/build/common.py,
which is not among the inspected sources.  Per the spec (section 4.1 and the
data-model lifecycle), `copy` returns a new graph sharing every step
definition except the overridden one — here the top-level interpreter step
`"python"`, whose download version and checksum are replaced by the
overrides — and carries the new graph-wide version; the original graph value
is not modified. -/
def copy_step (version checksum : String) (s : BuildStep) : BuildStep :=
  if s.name = "python" then
    { s with download :=
        s.download.map (fun d => { d with version := version, checksum := checksum }) }
  else s

/-- Modelled from the spec (continued): the copy itself — a new graph value
with the new default version whose steps are the originals with only the
interpreter-step override applied. -/
def Builder.copy (b : Builder) (version checksum : String) : Builder :=
  { b with
    version := version
    steps := b.steps.map (copy_step version checksum) }

/-- The 3.11.11 linux builder: `build.copy(version="3.11.11", checksum=...)`
(src/relenv/build/linux.py lines 989-991). -/
def linux_build_3_11 : Builder :=
  linux_build.copy "3.11.11" "acf539109b024d3c5f1fc63d6e7f08cd294ba56d"

/-- The 3.12.8 linux builder (lines 994-996), a copy of the 3.11.11 one. -/
def linux_build_3_12 : Builder :=
  linux_build_3_11.copy "3.12.8" "8872c7a124c6970833e0bde4f25d6d7d61c6af6e"

/-- The 3.13.1 linux builder (lines 999-1001), a copy of the 3.12.8 one. -/
def linux_build_3_13 : Builder :=
  linux_build_3_12.copy "3.13.1" "4b0c2a49a848c3c5d611416099636262a0b9090f"

/-- Modelled from the spec: the process-wide registry `builds` is declared in
relenv/build/common.py, which is not among the inspected sources.  Per the
spec it is a catalog of named builders with multiple version variants per
platform, populated at module load; for linux that is the original graph and
its three copies, in the order the `builds.add("linux", ...)` calls run. -/
def linux_builders : List Builder :=
  [linux_build, linux_build_3_11, linux_build_3_12, linux_build_3_13]

/-- The download metadata of a builder's `python` step, when present. -/
def python_download (b : Builder) : Option DownloadSpec :=
  (b.steps.find? (fun s => s.name == "python")).bind BuildStep.download

/-! ## Dependency edges of the linux graph -/

/-- The `wait_on` edge set of the linux graph: `(a, b)` means step `a` waits
on step `b`. -/
def linux_wait_edges : List (String × String) :=
  (linux_steps.map (fun s => s.wait_on.map (fun d => (s.name, d)))).flatten

/-- The registration rank of a step name: its index in registration order
(length of the list for a name that is no step). -/
def name_rank (n : String) : Nat := step_names.indexOf n

/-- Whether every edge of `E` points from a node to a strictly lower-ranked
node under `rank` — a topological orientation certificate. -/
def ranking_oriented (E : List (String × String)) (rank : String → Nat) : Bool :=
  E.all (fun e => decide (rank e.2 < rank e.1))

/-- Nonempty paths along an edge list. -/
inductive EdgePath (E : List (String × String)) : String → String → Prop
  | single {a b : String} : (a, b) ∈ E → EdgePath E a b
  | cons {a b c : String} : (a, b) ∈ E → EdgePath E b c → EdgePath E a c

/-- An edge relation is acyclic when no node reaches itself along a nonempty
path. -/
def Acyclic (E : List (String × String)) : Prop := ∀ a, ¬ EdgePath E a a

/-! ## Scheduler and per-step pipeline, modelled from the spec -/

/-- Spec section 4.2: terminal states of a step. -/
inductive StepState
  | Succeeded
  | Failed
  | Skipped
deriving Repr, DecidableEq, BEq

/-- Spec section 7: the step-scoped error kinds of the per-step pipeline. -/
inductive StepError
  | DownloadError
  | ChecksumMismatchError
  | BuildProcedureError
deriving Repr, DecidableEq

/-- Modelled from the spec: the per-step execution pipeline (section 4.3)
lives in relenv/build/common.py, which is not among the inspected sources.
Per the spec, a step with a DownloadSpec computes the fetched artifact's
digest and compares it against the declared `checksum`; on mismatch the step
fails with `ChecksumMismatchError` and does not proceed, otherwise the build
procedure runs and its outcome is the step's outcome.  `digest` gives the
digest of the artifact fetched for a step name, `build_ok` whether that
step's build procedure succeeds when invoked. -/
def step_pipeline (digest : String → String) (build_ok : String → Bool)
    (s : BuildStep) : Except StepError Unit :=
  match s.download with
  | some d =>
      if digest s.name == d.checksum then
        if build_ok s.name then Except.ok () else Except.error StepError.BuildProcedureError
      else Except.error StepError.ChecksumMismatchError
  | none =>
      if build_ok s.name then Except.ok () else Except.error StepError.BuildProcedureError

/-- Whether the pipeline of section 4.3 reaches the build-procedure
invocation for step `s`: it does exactly when there is no download to verify
or the fetched artifact's digest matches the declared checksum. -/
def step_invokes_build (digest : String → String) (s : BuildStep) : Bool :=
  match s.download with
  | some d => digest s.name == d.checksum
  | none => true

/-- Whether an optional recorded state is `Succeeded`. -/
def is_succeeded : Option StepState → Bool
  | some StepState.Succeeded => true
  | _ => false

/-- Spec section 4.2: a step may run only when every step it waits on is
`Succeeded` in the report so far. -/
def deps_succeeded (report : List (String × StepState)) (s : BuildStep) : Bool :=
  s.wait_on.all (fun n => is_succeeded (report.lookup n))

/-- The terminal state of one step given the report of the steps before it:
`Skipped` when some dependency did not succeed (spec section 4.2, propagating
transitively), otherwise the outcome of the pipeline. -/
def run_step (digest : String → String) (build_ok : String → Bool)
    (report : List (String × StepState)) (s : BuildStep) : StepState :=
  if deps_succeeded report s then
    match step_pipeline digest build_ok s with
    | Except.ok _ => StepState.Succeeded
    | Except.error _ => StepState.Failed
  else StepState.Skipped

/-- The executor's walk over the remaining steps, carrying the report of the
steps already decided: each step's terminal state is appended in turn. -/
def run_go (digest : String → String) (build_ok : String → Bool)
    (report : List (String × StepState)) : List BuildStep → List (String × StepState)
  | [] => report
  | s :: rest =>
      run_go digest build_ok
        (report ++ [(s.name, run_step digest build_ok report s)]) rest

/-- Modelled from the spec: the Scheduler/Executor (section 4.2) lives in
relenv/build/common.py, which is not among the inspected sources.  The
executor dispatches steps whose dependencies have all succeeded and marks
every step with a failed or skipped dependency `Skipped`; each step's final
state does not depend on the dispatch interleaving, so the model computes the
report sequentially in registration order (every `wait_on` edge points to an
earlier step). -/
def graph_report (digest : String → String) (build_ok : String → Bool)
    (steps : List BuildStep) : List (String × StepState) :=
  run_go digest build_ok [] steps

/-- The walk deciding whether some step named `target` ever has its build
procedure invoked: per section 4.3 a step's procedure runs exactly when the
step is dispatched (all dependencies succeeded so far) and its download, if
any, verifies. -/
def invoked_go (digest : String → String) (build_ok : String → Bool)
    (report : List (String × StepState)) (target : String) : List BuildStep → Bool
  | [] => false
  | s :: rest =>
      (deps_succeeded report s && step_invokes_build digest s && (s.name == target))
      || invoked_go digest build_ok
          (report ++ [(s.name, run_step digest build_ok report s)]) target rest

/-- Whether the run over `steps` ever invokes the build procedure of the step
named `target`. -/
def proc_invoked (digest : String → String) (build_ok : String → Bool)
    (steps : List BuildStep) (target : String) : Bool :=
  invoked_go digest build_ok [] target steps

/-- The linux steps after the first (openssl) one, in registration order. -/
def linux_tail : List BuildStep :=
  [openssl_fips_module_step, libxcrypt_step, xz_step,
   sqlite_step, bzip2_step, gdbm_step, ncurses_step, libffi_step, zlib_step,
   uuid_step, krb5_step, readline_step, tirpc_step, openldap_step,
   cyrus_sasl_step, libyaml_step, libsodium_step, libmd_step, libbsd_step,
   zeromq_step, python_step, relenv_finalize_step]

/-- The digest assignment under which every download of the linux graph
verifies: each step's fetched artifact digests to its declared checksum. -/
def declared_digest (n : String) : String :=
  match (linux_steps.find? (fun s => s.name == n)).bind BuildStep.download with
  | some d => d.checksum
  | none => ""

/-! ## Environment mappings -/

/-- An environment mapping, as the ordered key/value pairs of a Python dict. -/
abbrev Env : Type := List (String × String)

/-- The value of a key in an environment (`env[k]`; `none` is a `KeyError`). -/
def getv : Env → String → Option String
  | [], _ => none
  | (k', v) :: rest, k => if k = k' then some v else getv rest k

/-- Setting a key in place, as a Python dict does: replace the first binding
of the key, append when absent. -/
def setv : Env → String → String → Env
  | [], k, v => [(k, v)]
  | (k', v') :: rest, k, v =>
      if k = k' then (k, v) :: rest else (k', v') :: setv rest k v

/-- The working directories a step receives (`relenv.build.common.Dirs`); the
fields used by the inspected code, each a path rendered as a string.  `pfx`
stands for the install-prefix directory (the source's `dirs.prefix`). -/
structure Dirs where
  toolchain : String
  pfx : String
  source : String
  tmpbuild : String
deriving Repr, DecidableEq

/-- Shallow embedding of `populate_env` (src/relenv/build/linux.py lines
28-70).  The Python function mutates the `env` dict in place and returns
`None`; the embedding returns the final contents of that dict.  It reads
`env["RELENV_HOST"]` and `env["PATH"]`; `none` models the `KeyError` raised
when one is absent.  Python's `str.format` substitution is rendered as string
concatenation.  Note that the source assigns the literal text
`"{prefix}/lib"` to `LD_LIBRARY_PATH` without formatting it (line 69); the
embedding keeps that literal. -/
def populate_env (env : Env) (dirs : Dirs) : Option Env :=
  match getv env "RELENV_HOST", getv env "PATH" with
  | some host, some path =>
    let e1 := setv env "CC" (dirs.toolchain ++ "/bin/" ++ host ++ "-gcc -no-pie")
    let e2 := setv e1 "CXX" (dirs.toolchain ++ "/bin/" ++ host ++ "-g++ -no-pie")
    let e3 := setv e2 "PATH" (dirs.toolchain ++ "/bin/:" ++ dirs.pfx ++ "/bin/:" ++ path)
    let e4 := setv e3 "LDFLAGS"
      ("-Wl,--build-id=sha1 -Wl,--rpath=" ++ dirs.pfx ++ "/lib -L" ++ dirs.pfx
        ++ "/lib -L" ++ dirs.toolchain ++ "/" ++ host ++ "/sysroot/lib -static-libstdc++")
    let e5 := setv e4 "CFLAGS"
      ("-g -I" ++ dirs.pfx ++ "/include -I" ++ dirs.pfx ++ "/include/readline -I"
        ++ dirs.pfx ++ "/include/ncursesw -I" ++ dirs.toolchain ++ "/" ++ host
        ++ "/sysroot/usr/include")
    let cpp := "-I" ++ dirs.pfx ++ "/include -I" ++ dirs.pfx ++ "/include/readline -I"
        ++ dirs.pfx ++ "/include/ncursesw -I" ++ dirs.toolchain ++ "/" ++ host
        ++ "/sysroot/usr/include"
    let e6 := setv e5 "CPPFLAGS" cpp
    let e7 := setv e6 "CXXFLAGS" cpp
    let e8 := setv e7 "LD_LIBRARY_PATH" "\x7bprefix\x7d/lib"
    some (setv e8 "PKG_CONFIG_PATH" (dirs.pfx ++ "/lib/pkgconfig"))
  | _, _ => none

/-- The effect of `build_readline` (src/relenv/build/linux.py line 240) on
the environment dict passed to it: it assigns
`env["LDFLAGS"] = f"{env['LDFLAGS']} -ltinfow"`, mutating the caller's
mapping in place; `none` models the `KeyError` when `LDFLAGS` is absent.
The subprocess invocations that follow do not change the mapping. -/
def build_readline_env (env : Env) : Option Env :=
  match getv env "LDFLAGS" with
  | some ld => some (setv env "LDFLAGS" (ld ++ " -ltinfow"))
  | none => none

/-- The effect of `build_zlib` (line 297) on the environment dict passed to
it: it assigns `env["CFLAGS"] = "-fPIC {}".format(env["CFLAGS"])` in place. -/
def build_zlib_env (env : Env) : Option Env :=
  match getv env "CFLAGS" with
  | some cf => some (setv env "CFLAGS" ("-fPIC " ++ cf))
  | none => none

/-- The effect of `build_zeromq` (lines 476-480) on the environment dict
passed to it, in source order: `CFLAGS` (via `env.get`, defaulting to ""),
`LDFLAGS` (indexing, `KeyError` possible), `CPPFLAGS` (augmented assignment,
`KeyError` possible), `PKG_CONFIG_PATH`, `LD_LIBRARY_PATH` (via `env.get`). -/
def build_zeromq_env (env : Env) (dirs : Dirs) : Option Env :=
  let e1 := setv env "CFLAGS" ("-fPIC " ++ ((getv env "CFLAGS").getD ""))
  match getv e1 "LDFLAGS" with
  | none => none
  | some ld =>
    let e2 := setv e1 "LDFLAGS" (ld ++ " -lbsd -lsodium")
    match getv e2 "CPPFLAGS" with
    | none => none
    | some cpp =>
      let e3 := setv e2 "CPPFLAGS" (cpp ++ " -I" ++ dirs.pfx ++ "/include")
      let e4 := setv e3 "PKG_CONFIG_PATH" (dirs.pfx ++ "/lib/pkgconfig")
      some (setv e4 "LD_LIBRARY_PATH"
        (dirs.pfx ++ "/lib:" ++ ((getv e4 "LD_LIBRARY_PATH").getD "")))

/-! ## Subprocess trace of `build_python` -/

/-- One `runcmd` invocation: its argument list, whether the call passes
`env=env`, and whether its stdout and stderr are directed to the step's log
handle `logfp`. -/
structure Cmd where
  args : List String
  with_env : Bool
  out_to_log : Bool
  err_to_log : Bool
deriving Repr, DecidableEq

/-- The `runcmd` invocations `build_python` performs (src/relenv/build/linux.py
lines 565-656), in order.  `setup_py_exists` is whether `./setup.py` exists
(the patch branch), `cross` whether `RELENV_HOST_ARCH` differs from
`RELENV_BUILD_ARCH`; `pfx` is `dirs.prefix`, `relenv_build`, `relenv_host`
and `native_py` the respective `env` entries, `patch_file` the temporary
patch file's name.  The two `sed` edits of `configure` (lines 581-599) and
the `sed` edit of `Modules/Setup` (lines 644-651) pass neither `env` nor
`stderr`/`stdout`; every other invocation passes all three. -/
def build_python_cmds (setup_py_exists cross : Bool)
    (pfx relenv_build relenv_host native_py patch_file : String) : List Cmd :=
  [⟨["sed", "-i", "s/ac_cv_buggy_getaddrinfo=yes/ac_cv_buggy_getaddrinfo=no/g",
      "configure"], false, false, false⟩,
   ⟨["sed", "-i",
      "s/ac_cv_enable_implicit_function_declaration_error=yes/ac_cv_enable_implicit_function_declaration_error=no/g",
      "configure"], false, false, false⟩]
  ++ (if setup_py_exists then
        [⟨["patch", "-p0", "-i", patch_file], true, true, true⟩]
      else [])
  ++ [⟨["./configure", "-v", "--prefix=" ++ pfx, "--with-openssl=" ++ pfx,
        "--enable-optimizations", "--with-ensurepip=no",
        "--build=" ++ relenv_build, "--host=" ++ relenv_host,
        "--disable-test-modules", "--with-ssl-default-suites=openssl",
        "--with-builtin-hashlib-hashes=blake2,md5,sha1,sha2,sha3",
        "--with-readline=readline", "--with-pkg-config=yes"]
       ++ (if cross then ["--with-build-python=" ++ native_py] else [])
       ++ ["ac_cv_file__dev_ptmx=yes", "ac_cv_file__dev_ptc=no"],
       true, true, true⟩,
      ⟨["sed", "-i",
        "s/#readline readline.c -lreadline -ltermcap/readline readline.c -lreadline -ltinfow/g",
        "Modules/Setup"], false, false, false⟩,
      ⟨["make", "-j8"], true, true, true⟩,
      ⟨["make", "install"], true, true, true⟩]

/-! ## buildenv (src/relenv/buildenv.py) -/

/-- Modelled from the spec: the constant `MACOS_DEVELOPMENT_TARGET` is
imported from relenv/common.py, which is not among the inspected sources;
only the presence of the key it is stored under matters to the claims, so its
value is an opaque placeholder. -/
def MACOS_DEVELOPMENT_TARGET : String := "MACOS_DEVELOPMENT_TARGET"

/-- Python falsiness of the optional `relenv_path` argument: `None` or the
empty string. -/
def str_falsy : Option String → Bool
  | none => true
  | some s => s == ""

/-- Shallow embedding of `buildenv` (src/relenv/buildenv.py lines 35-86).
The ambient interpreter state and the collaborators imported from
relenv/common.py (not among the inspected sources) are parameters:
`sys_relenv` is `sys.RELENV` when the attribute exists (`is_relenv()`),
`platform` is `sys.platform`, `toolchain_base` is `work_dirs().toolchain`,
`triplet` is `get_triplet()`, and `os_environ` is `os.environ`.  `RelenvException`
is rendered as `Except.error` carrying the exception message; path joining as
`"/"` concatenation and f-string substitution as string concatenation. -/
def buildenv (relenv_path sys_relenv : Option String) (platform : String)
    (toolchain_base triplet : String) (os_environ : Env) : Except String Env :=
  match (if str_falsy relenv_path then sys_relenv else relenv_path) with
  | none => Except.error "Not in a relenv environment"
  | some rp =>
    if platform != "linux" then
      Except.error "buildenv is only supported on Linux"
    else
      let toolchain := toolchain_base ++ "/" ++ triplet
      let env : Env :=
        [("RELENV_BUILDENV", "1"),
         ("TOOLCHAIN_PATH", toolchain),
         ("TRIPLET", triplet),
         ("RELENV_PATH", rp),
         ("CARGO_HOME", toolchain ++ "/cargo"),
         ("RUSTUP_HOME", toolchain ++ "/cargo/.rustup"),
         ("RUSTC", toolchain ++ "/cargo/bin/rustc"),
         ("RUSTFLAGS", ((getv os_environ "RUSTFLAGS").getD "")
            ++ "-C linker=" ++ toolchain ++ "/bin/" ++ triplet ++ "-gcc"),
         ("CC", toolchain ++ "/bin/" ++ triplet ++ "-gcc -no-pie"),
         ("CXX", toolchain ++ "/bin/" ++ triplet ++ "-g++ -no-pie"),
         ("CFLAGS", "-I" ++ rp ++ "/include -fPIC -I" ++ toolchain
            ++ "/sysroot/usr/include"),
         ("CPPFLAGS", "-I" ++ rp ++ "/include -I" ++ toolchain ++ "/" ++ triplet
            ++ "/sysroot/usr/include"),
         ("CMAKE_CFLAGS", "-I" ++ rp ++ "/include -I" ++ toolchain ++ "/" ++ triplet
            ++ "/sysroot/usr/include -fPIC"),
         ("LDFLAGS", "-L" ++ rp ++ "/lib -L" ++ toolchain ++ "/" ++ triplet
            ++ "/sysroot/lib -Wl,-rpath," ++ rp ++ "/lib -lzmq -lkrb5 -lgssapi"),
         ("PKG_CONFIG_PATH", rp ++ "/lib/pkgconfig:" ++ toolchain ++ "/" ++ triplet
            ++ "/lib/pkgconfig")]
      Except.ok
        (if platform == "darwin" then
          env ++ [("MACOS_DEVELOPMENT_TARGET", MACOS_DEVELOPMENT_TARGET)]
        else env)

/-- Whether a `buildenv` outcome carries an environment that binds the key
`MACOS_DEVELOPMENT_TARGET` (an error binds nothing). -/
def binds_macos_target : Except String Env → Bool
  | Except.ok m => (getv m "MACOS_DEVELOPMENT_TARGET").isSome
  | Except.error _ => false

/-- Whether a `buildenv` outcome is a raised `RelenvException`. -/
def raises : Except String Env → Bool
  | Except.error _ => true
  | Except.ok _ => false

/-- The keys `populate_env` writes (src/relenv/build/linux.py lines 38-70). -/
def populate_env_written_keys : List String :=
  ["CC", "CXX", "PATH", "LDFLAGS", "CFLAGS", "CPPFLAGS", "CXXFLAGS",
   "LD_LIBRARY_PATH", "PKG_CONFIG_PATH"]

/-! ## Helper lemmas -/

theorem getv_setv_ne (e : Env) (k k' v : String) (h : k ≠ k') :
    getv (setv e k' v) k = getv e k := by
  induction e with
  | nil => simp [setv, getv, h]
  | cons p rest ih =>
    obtain ⟨pk, pv⟩ := p
    by_cases hk : k' = pk
    · subst hk
      simp [setv, getv, h]
    · simp only [setv, if_neg hk, getv]
      by_cases hkp : k = pk
      · simp [hkp]
      · simp [hkp, ih]

theorem ranking_oriented_path {E : List (String × String)} {rank : String → Nat}
    (h : ranking_oriented E rank = true) {a b : String} (p : EdgePath E a b) :
    rank b < rank a := by
  induction p with
  | single hmem => exact of_decide_eq_true (List.all_eq_true.mp h _ hmem)
  | cons hmem _ ih =>
      exact lt_trans ih (of_decide_eq_true (List.all_eq_true.mp h _ hmem))

theorem ranking_oriented_acyclic {E : List (String × String)} {rank : String → Nat}
    (h : ranking_oriented E rank = true) : Acyclic E :=
  fun _ p => absurd (ranking_oriented_path h p) (lt_irrefl _)

theorem copy_step_name (v c : String) (s : BuildStep) : (copy_step v c s).name = s.name := by
  unfold copy_step
  by_cases h : s.name = "python" <;> simp [h]

theorem copy_step_other (v c : String) (s : BuildStep) (h : s.name ≠ "python") :
    copy_step v c s = s := by
  unfold copy_step
  simp [h]

theorem copy_steps_filter (b : Builder) (v c : String) :
    (b.copy v c).steps.filter (fun s => !(s.name == "python"))
      = b.steps.filter (fun s => !(s.name == "python")) := by
  show (b.steps.map (copy_step v c)).filter _ = _
  induction b.steps with
  | nil => rfl
  | cons s rest ih =>
    rw [List.map_cons, List.filter_cons, List.filter_cons]
    by_cases h : s.name = "python"
    · have h1 : (!((copy_step v c s).name == "python")) = false := by
        rw [copy_step_name]
        simp [h]
      have h2 : (!(s.name == "python")) = false := by simp [h]
      rw [h1, h2]
      simp only [Bool.false_eq_true, if_false]
      exact ih
    · rw [copy_step_other v c s h]
      by_cases hb : (!(s.name == "python")) = true
      · rw [if_pos hb, if_pos hb, ih]
      · rw [if_neg hb, if_neg hb]
        exact ih

/-! ## Claim theorems -/

/-- C3: in the linux build graph as registered at module load, every name in
any step's `wait_on` set is the name of a registered step (no dangling
edges), and the union of the `wait_on` edges is an acyclic relation (it is
oriented by the registration rank, so no nonempty path returns to its
start). -/
theorem linux_graph_well_formed :
    (linux_steps.all (fun s => s.wait_on.all (fun d => step_names.contains d)) = true)
    ∧ Acyclic linux_wait_edges :=
  ⟨by decide, ranking_oriented_acyclic
    (by decide : ranking_oriented linux_wait_edges name_rank = true)⟩

/-- C4: `copy` is a pure derivation: for every graph and override pair the
copy agrees with the original on every step other than the overridden
interpreter step `python`, carries the new graph version, and the original
linux graph still holds its registered steps — in particular its python
download version and checksum are still the originally registered ones even
though three copies were derived from it. -/
theorem copy_frame (b : Builder) (v c : String) :
    (b.copy v c).steps.filter (fun s => !(s.name == "python"))
      = b.steps.filter (fun s => !(s.name == "python"))
    ∧ (b.copy v c).version = v
    ∧ linux_build.steps = linux_steps
    ∧ (python_download linux_build).map DownloadSpec.version = some "3.10.16"
    ∧ (python_download linux_build).map DownloadSpec.checksum
        = some "401e6a504a956c8f0aab76c4f3ad9df601a83eb1" :=
  ⟨copy_steps_filter b v c, rfl, rfl, by decide, by decide⟩

/-- C5: the linux graph's python step downloads the graph-wide default
version (3.10.16 as registered), and each copy taken at module load replaces
the python step's download version and checksum with the override while
every other step keeps its own download metadata. -/
theorem interpreter_version_tracks_graph :
    (python_download linux_build).map DownloadSpec.version = some linux_build.version
    ∧ linux_build.version = "3.10.16"
    ∧ (python_download linux_build_3_11).map DownloadSpec.version = some "3.11.11"
    ∧ (python_download linux_build_3_11).map DownloadSpec.checksum
        = some "acf539109b024d3c5f1fc63d6e7f08cd294ba56d"
    ∧ (python_download linux_build_3_12).map DownloadSpec.version = some "3.12.8"
    ∧ (python_download linux_build_3_12).map DownloadSpec.checksum
        = some "8872c7a124c6970833e0bde4f25d6d7d61c6af6e"
    ∧ (python_download linux_build_3_13).map DownloadSpec.version = some "3.13.1"
    ∧ (python_download linux_build_3_13).map DownloadSpec.checksum
        = some "4b0c2a49a848c3c5d611416099636262a0b9090f"
    ∧ linux_build_3_11.steps.filter (fun s => !(s.name == "python"))
        = linux_steps.filter (fun s => !(s.name == "python"))
    ∧ linux_build_3_12.steps.filter (fun s => !(s.name == "python"))
        = linux_steps.filter (fun s => !(s.name == "python"))
    ∧ linux_build_3_13.steps.filter (fun s => !(s.name == "python"))
        = linux_steps.filter (fun s => !(s.name == "python")) := by
  refine ⟨rfl, rfl, rfl, rfl, rfl, rfl, rfl, rfl, ?_, ?_, ?_⟩ <;> rfl

/-- C2: for every step that declares a DownloadSpec, when the digest of the
fetched artifact differs from the declared checksum the step's pipeline
terminates with `ChecksumMismatchError` and the build procedure is not
invoked. -/
theorem checksum_mismatch_fails_step (digest : String → String)
    (build_ok : String → Bool) (s : BuildStep) (d : DownloadSpec)
    (hd : s.download = some d)
    (hne : (digest s.name == d.checksum) = false) :
    step_pipeline digest build_ok s = Except.error StepError.ChecksumMismatchError
    ∧ step_invokes_build digest s = false := by
  simp [step_pipeline, step_invokes_build, hd, hne]

/-- Witness for C2: a fetched openssl artifact digesting to "0000" fails the
openssl step with `ChecksumMismatchError` and never reaches its build
procedure. -/
theorem checksum_mismatch_fails_step_witness :
    step_pipeline (fun _ => "0000") (fun _ => true) openssl_step
      = Except.error StepError.ChecksumMismatchError
    ∧ step_invokes_build (fun _ => "0000") openssl_step = false :=
  checksum_mismatch_fails_step (fun _ => "0000") (fun _ => true) openssl_step _
    rfl (by decide)

/-- C6 counterexample: `populate_env` is not mutation-free.  On the mapping
`{RELENV_HOST: x86_64-linux-gnu, PATH: /usr/bin}` the caller's dict after the
call (the embedded result) differs from the dict passed in: the function
writes `CC`, `CXX`, ... into it in place (and returns `None`, not a fresh
mapping). -/
theorem populate_env_mutates :
    populate_env [("RELENV_HOST", "x86_64-linux-gnu"), ("PATH", "/usr/bin")]
        ⟨"/tc", "/pfx", "/src", "/tmpb"⟩
      ≠ some [("RELENV_HOST", "x86_64-linux-gnu"), ("PATH", "/usr/bin")] := by
  decide

/-- C6 amended: `populate_env` deterministically updates the given
environment mapping in place (the caller's mapping after the call is the
computed result); it writes exactly the keys CC, CXX, PATH, LDFLAGS, CFLAGS,
CPPFLAGS, CXXFLAGS, LD_LIBRARY_PATH and PKG_CONFIG_PATH, preserves every
other binding, and two calls with equal inputs yield equal results. -/
theorem populate_env_frame (env env' : Env) (dirs dirs' : Dirs) (out : Env)
    (k : String) (hout : populate_env env dirs = some out)
    (hk : k ∉ populate_env_written_keys)
    (he : env = env') (hd : dirs = dirs') :
    getv out k = getv env k ∧ populate_env env dirs = populate_env env' dirs' := by
  refine ⟨?_, by rw [he, hd]⟩
  simp [populate_env_written_keys] at hk
  obtain ⟨h1, h2, h3, h4, h5, h6, h7, h8, h9⟩ := hk
  unfold populate_env at hout
  cases hh : getv env "RELENV_HOST" with
  | none => rw [hh] at hout; cases hout
  | some host =>
    cases hp : getv env "PATH" with
    | none => rw [hh, hp] at hout; cases hout
    | some path =>
      rw [hh, hp] at hout
      injection hout with hout
      rw [← hout]
      rw [getv_setv_ne _ _ _ _ h9, getv_setv_ne _ _ _ _ h8,
        getv_setv_ne _ _ _ _ h7, getv_setv_ne _ _ _ _ h6,
        getv_setv_ne _ _ _ _ h5, getv_setv_ne _ _ _ _ h4,
        getv_setv_ne _ _ _ _ h3, getv_setv_ne _ _ _ _ h2,
        getv_setv_ne _ _ _ _ h1]

/-- Witness for C6 amended: on a concrete mapping carrying an extra key
`HOME`, that key's binding survives `populate_env` untouched. -/
theorem populate_env_frame_witness :
    getv ((populate_env
        [("RELENV_HOST", "x86_64-linux-gnu"), ("PATH", "/usr/bin"), ("HOME", "/root")]
        ⟨"/tc", "/pfx", "/src", "/tmpb"⟩).getD []) "HOME"
      = getv [("RELENV_HOST", "x86_64-linux-gnu"), ("PATH", "/usr/bin"),
          ("HOME", "/root")] "HOME"
    ∧ populate_env
        [("RELENV_HOST", "x86_64-linux-gnu"), ("PATH", "/usr/bin"), ("HOME", "/root")]
        ⟨"/tc", "/pfx", "/src", "/tmpb"⟩
      = populate_env
        [("RELENV_HOST", "x86_64-linux-gnu"), ("PATH", "/usr/bin"), ("HOME", "/root")]
        ⟨"/tc", "/pfx", "/src", "/tmpb"⟩ :=
  populate_env_frame _ _ _ _ _ "HOME" rfl (by decide) rfl rfl

/-- C7 counterexample: build procedures do mutate their environment input.
`build_readline` on the mapping `{LDFLAGS: -L/pfx/lib}` leaves the caller's
mapping changed (` -ltinfow` appended in place). -/
theorem build_readline_mutates :
    build_readline_env [("LDFLAGS", "-L/pfx/lib")]
      ≠ some [("LDFLAGS", "-L/pfx/lib")] := by
  decide

/-- C7 amended: the build procedures mutate the environment mapping passed
in, but each writes only its specific keys and preserves every other
binding: `build_readline` writes only LDFLAGS, `build_zlib` only CFLAGS, and
`build_zeromq` only CFLAGS, LDFLAGS, CPPFLAGS, PKG_CONFIG_PATH and
LD_LIBRARY_PATH. -/
theorem build_procs_touch_only_their_keys
    (e1 e2 e3 o1 o2 o3 : Env) (dirs : Dirs) (k1 k2 k3 : String)
    (h1 : build_readline_env e1 = some o1) (hk1 : k1 ≠ "LDFLAGS")
    (h2 : build_zlib_env e2 = some o2) (hk2 : k2 ≠ "CFLAGS")
    (h3 : build_zeromq_env e3 dirs = some o3)
    (hk3 : k3 ∉ ["CFLAGS", "LDFLAGS", "CPPFLAGS", "PKG_CONFIG_PATH", "LD_LIBRARY_PATH"]) :
    getv o1 k1 = getv e1 k1 ∧ getv o2 k2 = getv e2 k2 ∧ getv o3 k3 = getv e3 k3 := by
  simp at hk3
  obtain ⟨hc, hl, hcpp, hpkg, hld⟩ := hk3
  refine ⟨?_, ?_, ?_⟩
  · unfold build_readline_env at h1
    cases hg : getv e1 "LDFLAGS" with
    | none => rw [hg] at h1; cases h1
    | some ld =>
        rw [hg] at h1
        injection h1 with h1
        rw [← h1, getv_setv_ne _ _ _ _ hk1]
  · unfold build_zlib_env at h2
    cases hg : getv e2 "CFLAGS" with
    | none => rw [hg] at h2; cases h2
    | some cf =>
        rw [hg] at h2
        injection h2 with h2
        rw [← h2, getv_setv_ne _ _ _ _ hk2]
  · unfold build_zeromq_env at h3
    simp only [] at h3
    cases hg : getv (setv e3 "CFLAGS" ("-fPIC " ++ ((getv e3 "CFLAGS").getD ""))) "LDFLAGS" with
    | none => rw [hg] at h3; cases h3
    | some ld =>
        rw [hg] at h3
        simp only [] at h3
        cases hg2 : getv (setv (setv e3 "CFLAGS" ("-fPIC " ++ ((getv e3 "CFLAGS").getD "")))
            "LDFLAGS" (ld ++ " -lbsd -lsodium")) "CPPFLAGS" with
        | none => rw [hg2] at h3; cases h3
        | some cpp =>
            rw [hg2] at h3
            injection h3 with h3
            rw [← h3, getv_setv_ne _ _ _ _ hld, getv_setv_ne _ _ _ _ hpkg,
              getv_setv_ne _ _ _ _ hcpp, getv_setv_ne _ _ _ _ hl,
              getv_setv_ne _ _ _ _ hc]

/-- Witness for C7 amended: on concrete mappings carrying an extra key
`HOME`, all three build procedures leave that binding untouched. -/
theorem build_procs_touch_only_their_keys_witness :
    getv ((build_readline_env [("LDFLAGS", "-L/l"), ("HOME", "/root")]).getD []) "HOME"
      = getv [("LDFLAGS", "-L/l"), ("HOME", "/root")] "HOME"
    ∧ getv ((build_zlib_env [("CFLAGS", "-g"), ("HOME", "/root")]).getD []) "HOME"
      = getv [("CFLAGS", "-g"), ("HOME", "/root")] "HOME"
    ∧ getv ((build_zeromq_env
          [("LDFLAGS", "-L/l"), ("CPPFLAGS", "-I/i"), ("HOME", "/root")]
          ⟨"/tc", "/pfx", "/src", "/tmpb"⟩).getD []) "HOME"
      = getv [("LDFLAGS", "-L/l"), ("CPPFLAGS", "-I/i"), ("HOME", "/root")] "HOME" :=
  build_procs_touch_only_their_keys _ _ _ _ _ _ _ "HOME" "HOME" "HOME"
    rfl (by decide) rfl (by decide) rfl (by decide)

/-- C8 counterexample: not every `runcmd` call in `build_python` directs its
streams to the step's log handle — at these concrete parameters the command
trace contains an invocation (the first `sed` edit of `configure`) whose
stdout and stderr are not sent to `logfp`. -/
theorem build_python_unlogged_subprocess :
    ((build_python_cmds true false "/pfx" "x86_64-linux-gnu" "x86_64-linux-gnu"
        "/np" "/tmp/patch").all (fun c => c.out_to_log && c.err_to_log)) = false := by
  decide

/-- C8 amended: inside `build_python`, every `runcmd` invocation other than
the three in-place `sed` text edits (two on `configure`, one on
`Modules/Setup`) passes `env=env` and directs both stdout and stderr to the
`logfp` handle, while the `sed` edits pass none of the three. -/
theorem build_python_logs_all_but_sed (setup_py_exists cross : Bool)
    (pfx relenv_build relenv_host native_py patch_file : String) :
    ((build_python_cmds setup_py_exists cross pfx relenv_build relenv_host
        native_py patch_file).all
      (fun c =>
        if c.args.head? == some "sed" then
          !c.with_env && !c.out_to_log && !c.err_to_log
        else c.with_env && c.out_to_log && c.err_to_log)) = true := by
  cases setup_py_exists <;> cases cross <;> rfl

/-- C9: `buildenv` raises `RelenvException` whenever `sys.platform` is not
"linux", for every argument (an explicitly supplied `relenv_path` included);
consequently the darwin branch that would add `MACOS_DEVELOPMENT_TARGET`
is unreachable and no mapping `buildenv` ever returns binds that key. -/
theorem buildenv_nonlinux_raises (relenv_path sys_relenv : Option String)
    (platform toolchain_base triplet : String) (os_environ : Env)
    (h : platform ≠ "linux") :
    raises (buildenv relenv_path sys_relenv platform toolchain_base triplet os_environ)
      = true
    ∧ ∀ (rp sr : Option String) (plat tc trip : String) (oe : Env),
        binds_macos_target (buildenv rp sr plat tc trip oe) = false := by
  constructor
  · unfold buildenv
    cases hm : (if str_falsy relenv_path then sys_relenv else relenv_path) with
    | none => simp [raises]
    | some rp =>
        have hb : (platform != "linux") = true := by simp [bne_iff_ne, h]
        simp [hb, raises]
  · intro rp sr plat tc trip oe
    unfold buildenv
    cases hm : (if str_falsy rp then sr else rp) with
    | none => simp [binds_macos_target]
    | some r =>
        by_cases hp : (plat != "linux") = true
        · simp [hp, binds_macos_target]
        · have hl : plat = "linux" := by
            simpa [bne_iff_ne] using hp
          subst hl
          simp [binds_macos_target, getv]

/-- Witness for C9: on darwin (with an explicit `relenv_path`), `buildenv`
raises. -/
theorem buildenv_nonlinux_raises_witness :
    raises (buildenv (some "/opt/relenv") none "darwin" "/toolchains"
        "x86_64-linux-gnu" []) = true :=
  (buildenv_nonlinux_raises (some "/opt/relenv") none "darwin" "/toolchains"
      "x86_64-linux-gnu" [] (by decide)).1

/-- C10: called with a falsy `relenv_path` while the interpreter has no
`sys.RELENV` attribute, `buildenv` raises "Not in a relenv environment"
(before any environment mapping is produced — the outcome carries none);
with a non-falsy `relenv_path` supplied, the `is_relenv` check is skipped:
the outcome is the same whatever `sys.RELENV` holds. -/
theorem buildenv_requires_relenv (relenv_path sys_relenv sys_relenv' : Option String)
    (p platform toolchain_base triplet : String) (os_environ : Env)
    (hfalsy : str_falsy relenv_path = true) (hp : str_falsy (some p) = false) :
    buildenv relenv_path none platform toolchain_base triplet os_environ
      = Except.error "Not in a relenv environment"
    ∧ buildenv (some p) sys_relenv platform toolchain_base triplet os_environ
      = buildenv (some p) sys_relenv' platform toolchain_base triplet os_environ := by
  constructor
  · unfold buildenv
    simp [hfalsy]
  · unfold buildenv
    simp [hp]

/-- Witness for C10: with no `relenv_path` and no `sys.RELENV` the call
raises, and with `relenv_path = "/opt/r"` the result ignores `sys.RELENV`. -/
theorem buildenv_requires_relenv_witness :
    buildenv none none "linux" "/tc" "x86_64-linux-gnu" []
      = Except.error "Not in a relenv environment"
    ∧ buildenv (some "/opt/r") (some "/other") "linux" "/tc" "x86_64-linux-gnu" []
      = buildenv (some "/opt/r") none "linux" "/tc" "x86_64-linux-gnu" [] :=
  buildenv_requires_relenv none (some "/other") none "/opt/r" "linux" "/tc"
    "x86_64-linux-gnu" [] rfl (by decide)

theorem lookup_append_left {l1 l2 : List (String × StepState)} {n : String}
    {v : StepState} (h : l1.lookup n = some v) : (l1 ++ l2).lookup n = some v := by
  induction l1 with
  | nil => cases h
  | cons p rest ih =>
    obtain ⟨k, w⟩ := p
    by_cases hk : (n == k) = true
    · simp only [List.lookup, hk] at h ⊢
      exact h
    · have hk' : (n == k) = false := by
        cases hb : (n == k) with
        | true => exact absurd hb hk
        | false => rfl
      simp only [List.cons_append, List.lookup, hk'] at h ⊢
      exact ih h

theorem lookup_append_right {l1 : List (String × StepState)} {n : String}
    (h : l1.lookup n = none) (l2 : List (String × StepState)) :
    (l1 ++ l2).lookup n = l2.lookup n := by
  induction l1 with
  | nil => rfl
  | cons p rest ih =>
    obtain ⟨k, w⟩ := p
    by_cases hk : (n == k) = true
    · simp only [List.lookup, hk] at h
      cases h
    · have hk' : (n == k) = false := by
        cases hb : (n == k) with
        | true => exact absurd hb hk
        | false => rfl
      simp only [List.cons_append, List.lookup, hk'] at h ⊢
      exact ih h

theorem run_go_lookup_stable (digest : String → String) (build_ok : String → Bool) :
    ∀ (steps : List BuildStep) (acc : List (String × StepState)) (n : String)
      (v : StepState), acc.lookup n = some v →
      (run_go digest build_ok acc steps).lookup n = some v := by
  intro steps
  induction steps with
  | nil => intro acc n v h; exact h
  | cons s rest ih =>
      intro acc n v h
      rw [run_go]
      exact ih _ n v (lookup_append_left h)

theorem deps_failed_not_succeeded (acc : List (String × StepState)) (s : BuildStep)
    (dep : String) (hdep : dep ∈ s.wait_on)
    (hl : acc.lookup dep = some StepState.Failed) :
    deps_succeeded acc s = false := by
  cases hb : deps_succeeded acc s with
  | false => rfl
  | true =>
      exfalso
      unfold deps_succeeded at hb
      have hd := List.all_eq_true.mp hb dep hdep
      rw [hl] at hd
      simp [is_succeeded] at hd

theorem run_step_skipped (digest : String → String) (build_ok : String → Bool)
    (acc : List (String × StepState)) (s : BuildStep)
    (h : deps_succeeded acc s = false) :
    run_step digest build_ok acc s = StepState.Skipped := by
  simp [run_step, h]

theorem run_go_skip (digest : String → String) (build_ok : String → Bool)
    (dep t : String) :
    ∀ (steps : List BuildStep) (acc : List (String × StepState)),
      acc.lookup dep = some StepState.Failed →
      acc.lookup t = none →
      (∃ s, s ∈ steps ∧ s.name = t) →
      (∀ s ∈ steps, s.name = t → dep ∈ s.wait_on) →
      (run_go digest build_ok acc steps).lookup t = some StepState.Skipped := by
  intro steps
  induction steps with
  | nil =>
      rintro acc _ _ ⟨s, hs, _⟩ _
      exact absurd hs (List.not_mem_nil s)
  | cons s rest ih =>
      rintro acc hdep ht ⟨s0, hs0, hs0n⟩ hall
      rw [run_go]
      by_cases hname : s.name = t
      · have hwait : dep ∈ s.wait_on := hall s (List.mem_cons_self s rest) hname
        have hskip : run_step digest build_ok acc s = StepState.Skipped :=
          run_step_skipped _ _ _ _ (deps_failed_not_succeeded _ _ _ hwait hdep)
        apply run_go_lookup_stable
        rw [lookup_append_right ht]
        simp [List.lookup, hname, hskip]
      · have hstep : (acc ++ [(s.name, run_step digest build_ok acc s)]).lookup t
            = none := by
          rw [lookup_append_right ht]
          have hne : (t == s.name) = false := by
            cases hb : (t == s.name) with
            | true => exact absurd (eq_comm.mp (eq_of_beq hb)) hname
            | false => rfl
          simp [List.lookup, hne]
        have hdep' : (acc ++ [(s.name, run_step digest build_ok acc s)]).lookup dep
            = some StepState.Failed := lookup_append_left hdep
        have hex : ∃ s1, s1 ∈ rest ∧ s1.name = t := by
          rcases List.mem_cons.mp hs0 with h0 | h0
          · exact absurd (h0 ▸ hs0n) hname
          · exact ⟨s0, h0, hs0n⟩
        exact ih _ hdep' hstep hex
          (fun s' hs' hn => hall s' (List.mem_cons_of_mem s hs') hn)

theorem invoked_go_false (digest : String → String) (build_ok : String → Bool)
    (dep t : String) :
    ∀ (steps : List BuildStep) (acc : List (String × StepState)),
      acc.lookup dep = some StepState.Failed →
      (∀ s ∈ steps, s.name = t → dep ∈ s.wait_on) →
      invoked_go digest build_ok acc t steps = false := by
  intro steps
  induction steps with
  | nil => intro acc _ _; rfl
  | cons s rest ih =>
      intro acc hdep hall
      rw [invoked_go]
      have hrest : invoked_go digest build_ok
          (acc ++ [(s.name, run_step digest build_ok acc s)]) t rest = false :=
        ih _ (lookup_append_left hdep)
          (fun s' hs' hn => hall s' (List.mem_cons_of_mem s hs') hn)
      rw [hrest, Bool.or_false]
      by_cases hname : s.name = t
      · have hwait : dep ∈ s.wait_on := hall s (List.mem_cons_self s rest) hname
        rw [deps_failed_not_succeeded _ _ _ hwait hdep]
        simp
      · have hne : (s.name == t) = false := by
          cases hb : (s.name == t) with
          | true => exact absurd (eq_of_beq hb) hname
          | false => rfl
        rw [hne, Bool.and_false]

/-- C1: in the registered linux build graph (where krb5 waits on openssl and
python waits on krb5 and openssl, among others), any run in which openssl's
checksum verification fails — the fetched artifact's digest differs from the
registered openssl checksum — produces a report with openssl `Failed` and
krb5 and python `Skipped`, and the build procedures of krb5 and python are
never invoked. -/
theorem openssl_checksum_failure_scenario (digest : String → String)
    (build_ok : String → Bool)
    (h : (digest "openssl" == "5c2f33c3f3601676f225109231142cdc30d44127") = false) :
    (graph_report digest build_ok linux_steps).lookup "openssl" = some StepState.Failed
    ∧ (graph_report digest build_ok linux_steps).lookup "krb5" = some StepState.Skipped
    ∧ (graph_report digest build_ok linux_steps).lookup "python" = some StepState.Skipped
    ∧ proc_invoked digest build_ok linux_steps "krb5" = false
    ∧ proc_invoked digest build_ok linux_steps "python" = false := by
  have hostep : run_step digest build_ok [] openssl_step = StepState.Failed := by
    simp [run_step, deps_succeeded, step_pipeline, openssl_step, h]
  have hsplit : graph_report digest build_ok linux_steps
      = run_go digest build_ok [("openssl", StepState.Failed)] linux_tail := by
    show run_go digest build_ok [] linux_steps = _
    rw [show linux_steps = openssl_step :: linux_tail from rfl, run_go, hostep]
    rfl
  refine ⟨?_, ?_, ?_, ?_, ?_⟩
  · rw [hsplit]
    exact run_go_lookup_stable digest build_ok linux_tail _ _ _ rfl
  · rw [hsplit]
    exact run_go_skip digest build_ok "openssl" "krb5" linux_tail _ rfl rfl
      ⟨krb5_step, by decide, rfl⟩ (by decide)
  · rw [hsplit]
    exact run_go_skip digest build_ok "openssl" "python" linux_tail _ rfl rfl
      ⟨python_step, by decide, rfl⟩ (by decide)
  · show invoked_go digest build_ok [] "krb5" linux_steps = false
    rw [show linux_steps = openssl_step :: linux_tail from rfl, invoked_go, hostep]
    rw [show (openssl_step.name == "krb5") = false from rfl, Bool.and_false,
      Bool.false_or]
    exact invoked_go_false digest build_ok "openssl" "krb5" linux_tail _ rfl (by decide)
  · show invoked_go digest build_ok [] "python" linux_steps = false
    rw [show linux_steps = openssl_step :: linux_tail from rfl, invoked_go, hostep]
    rw [show (openssl_step.name == "python") = false from rfl, Bool.and_false,
      Bool.false_or]
    exact invoked_go_false digest build_ok "openssl" "python" linux_tail _ rfl
      (by decide)

/-- Witness for C1: a run where openssl's artifact digests to "0000" while
every other artifact digests to its declared checksum and every dispatched
build procedure succeeds. -/
theorem openssl_checksum_failure_scenario_witness :
    (graph_report (fun n => if n == "openssl" then "0000" else declared_digest n)
        (fun _ => true) linux_steps).lookup "openssl" = some StepState.Failed
    ∧ (graph_report (fun n => if n == "openssl" then "0000" else declared_digest n)
        (fun _ => true) linux_steps).lookup "krb5" = some StepState.Skipped
    ∧ (graph_report (fun n => if n == "openssl" then "0000" else declared_digest n)
        (fun _ => true) linux_steps).lookup "python" = some StepState.Skipped
    ∧ proc_invoked (fun n => if n == "openssl" then "0000" else declared_digest n)
        (fun _ => true) linux_steps "krb5" = false
    ∧ proc_invoked (fun n => if n == "openssl" then "0000" else declared_digest n)
        (fun _ => true) linux_steps "python" = false :=
  openssl_checksum_failure_scenario
    (fun n => if n == "openssl" then "0000" else declared_digest n)
    (fun _ => true) (by decide)

end Relenv
